import Mathlib

/-!
# Verification of the homecast streaming proxy and session monitors

Shallow embedding, in Lean 4, of the core logic of the homecast server:
the M3U8 manifest rewriter (`src/lib/proxy.js`, `src/routes/proxy.js`),
the adaptive playlist cache, the segment retry loop with skip-ahead,
the session teardown paths (`src/lib/cast.js`), the stall detection and
recovery state machine (`src/lib/recovery.js`), the connection health
monitor (`src/lib/health.js`), and the buffer health tracker
(`src/lib/stats.js`).

Strings are embedded as `List Char`; timestamps (JS `Date.now()`
milliseconds) as `Int`; fractional seconds as `Rat`.  Each definition is
translated from the corresponding JavaScript function and carries its
source name where Lean allows it.
-/

namespace Homecast

/-! ## Basic string utilities (JS primitives used by the source) -/

/-- JS `String.prototype.startsWith`, on character lists. -/
def startsWithL (pat s : List Char) : Bool :=
  pat.isPrefixOf s

/-- Whitespace characters recognized by JS `String.prototype.trim`
(restricted to the ASCII whitespace that can occur in manifests). -/
def isJsSpace (c : Char) : Bool :=
  c.toNat = 32 || c.toNat = 9 || c.toNat = 10 || c.toNat = 13 || c.toNat = 12 || c.toNat = 11

/-- JS `String.prototype.trim`: drop leading and trailing whitespace. -/
def jsTrim (s : List Char) : List Char :=
  ((s.dropWhile isJsSpace).reverse.dropWhile isJsSpace).reverse

/-- JS `String.prototype.includes`: substring containment. -/
def containsSub (pat : List Char) : List Char → Bool
  | [] => pat.isEmpty
  | c :: rest => pat.isPrefixOf (c :: rest) || containsSub pat rest

/-- One step of JS `String.prototype.replace` with a plain-string pattern:
replace the first occurrence of `pat` (searched left to right) by `repl`;
if `pat` does not occur, return the string unchanged. -/
def replaceFirst (s pat repl : List Char) : List Char :=
  match s with
  | [] => []
  | c :: rest =>
    if pat.isPrefixOf (c :: rest) then
      repl ++ (c :: rest).drop pat.length
    else
      c :: replaceFirst rest pat repl

/-- Decimal digit characters of a natural number, most significant first
(JS `${n}` for a nonnegative integer). -/
def natDigits (n : Nat) : List Char :=
  Nat.toDigits 10 n

/-- `containsSub` decides list infixity. -/
theorem containsSub_iff_infix (pat : List Char) (s : List Char) :
    containsSub pat s = true ↔ pat <:+: s := by
  induction s with
  | nil =>
    simp [containsSub, List.isEmpty_iff]
  | cons c rest ih =>
    simp only [containsSub, Bool.or_eq_true, List.isPrefixOf_iff_prefix, ih,
      List.infix_cons_iff]

/-! ## Playlist cache (src/routes/proxy.js, lines 121-137 and 231-237)

The cache maps the original manifest URL to
`{ content, timestamp, isLive }`; the constants below are
`CACHE_TTL_LIVE` and `CACHE_TTL_VOD` from `src/lib/utils.js`. -/

def CACHE_TTL_LIVE : Int := 4000

def CACHE_TTL_VOD : Int := 60000

structure CacheEntry where
  content : List Char
  timestamp : Int
  isLive : Bool
deriving DecidableEq

/-- `cached?.isLive ? CACHE_TTL_LIVE : CACHE_TTL_VOD`
(an absent entry yields `undefined`, which is falsy, hence the VOD TTL). -/
def cacheTTLOf (cached : Option CacheEntry) : Int :=
  match cached with
  | some e => if e.isLive then CACHE_TTL_LIVE else CACHE_TTL_VOD
  | none => CACHE_TTL_VOD

/-- `cached && (Date.now() - cached.timestamp < cacheTTL)`: whether the
request is served from the cache. -/
def serveFromCache (now : Int) (cached : Option CacheEntry) : Bool :=
  match cached with
  | some e => decide (now - e.timestamp < cacheTTLOf (some e))
  | none => false

/-- `'#EXT-X-ENDLIST'`, the end-of-stream marker tested by the classifier. -/
def endlistMarker : List Char := "#EXT-X-ENDLIST".data

/-- `const isLive = !originalM3u8.includes('#EXT-X-ENDLIST')`. -/
def classifyIsLive (text : List Char) : Bool :=
  ! containsSub endlistMarker text

/-- The cache entry stored after a fetch: rewritten text, fetch time, and
the live flag computed from the original manifest text
(`playlistCache.set(cacheKey, { content, timestamp: Date.now(), isLive })`). -/
def manifestCacheEntry (now : Int) (originalText rewritten : List Char) : CacheEntry :=
  { content := rewritten, timestamp := now, isLive := classifyIsLive originalText }

/-- **C2.** A cached entry is served iff `now - timestamp < ttl` with strict
inequality, where the TTL is 4000 ms for a live entry and 60000 ms for a
VOD entry; an entry whose age equals its TTL is not served (it is
refetched); and the stored `isLive` flag is true exactly when the fetched
manifest text does not contain `#EXT-X-ENDLIST`. -/
theorem cache_serving_iff_age_lt_ttl (now : Int) (cached : Option CacheEntry)
    (originalText rewritten : List Char) :
    (serveFromCache now cached = true ↔
      ∃ e, cached = some e ∧
        now - e.timestamp < (if e.isLive then (4000 : Int) else 60000)) ∧
    (∀ e, cached = some e →
      now - e.timestamp = (if e.isLive then (4000 : Int) else 60000) →
      serveFromCache now cached = false) ∧
    ((manifestCacheEntry now originalText rewritten).isLive = true ↔
      ¬ endlistMarker <:+: originalText) := by
  refine ⟨?_, ?_, ?_⟩
  · cases cached with
    | none => simp [serveFromCache]
    | some e =>
      simp only [serveFromCache, cacheTTLOf, CACHE_TTL_LIVE, CACHE_TTL_VOD,
        decide_eq_true_eq, Option.some.injEq]
      constructor
      · intro h; exact ⟨e, rfl, h⟩
      · rintro ⟨e', he, h⟩; cases he; exact h
  · intro e he hage
    subst he
    simp only [serveFromCache, cacheTTLOf, CACHE_TTL_LIVE, CACHE_TTL_VOD,
      decide_eq_false_iff_not]
    omega
  · simp only [manifestCacheEntry, classifyIsLive, Bool.not_eq_true',
      ← containsSub_iff_infix]
    cases h : containsSub endlistMarker originalText <;> simp [h]

/-- Witness for `cache_serving_iff_age_lt_ttl`: a live entry of age 3999 ms
is served, one of age exactly 4000 ms is not, and a manifest with the
end-of-stream marker is classified VOD. -/
theorem cache_serving_iff_age_lt_ttl_witness :
    serveFromCache 3999 (some ⟨[], 0, true⟩) = true ∧
    serveFromCache 4000 (some ⟨[], 0, true⟩) = false ∧
    (manifestCacheEntry 0 "#EXTM3U\n#EXT-X-ENDLIST".data []).isLive = false := by
  have h := cache_serving_iff_age_lt_ttl 4000 (some ⟨[], 0, true⟩)
    "#EXTM3U\n#EXT-X-ENDLIST".data []
  refine ⟨?_, ?_, ?_⟩
  · decide
  · exact h.2.1 ⟨[], 0, true⟩ rfl (by decide)
  · have h3 := h.2.2
    by_contra hc
    simp only [Bool.not_eq_false] at hc
    exact (h3.mp hc) (by decide)

/-! ## Per-device map presence and session teardown (src/lib/cast.js)

`src/lib/state.js` keeps seven per-device maps: `activeSessions`,
`playbackTracking`, `bufferHealthTracking`, `streamRecovery`,
`deviceToClientMap`, `connectionHealth`, `streamStats`.  For one fixed
device we record, for each map, whether it currently holds an entry for
the device.  Each teardown path in `src/lib/cast.js` is embedded as the
set of `.delete(ip)` calls it performs. -/

structure DeviceMaps where
  session : Bool
  playback : Bool
  bufferHealth : Bool
  recovery : Bool
  deviceClient : Bool
  connHealth : Bool
  stats : Bool
deriving DecidableEq

/-- All seven maps hold an entry for the device (a fully started session). -/
def allMapsPresent : DeviceMaps :=
  ⟨true, true, true, true, true, true, true⟩

/-- No map holds an entry for the device. -/
def noMapsPresent : DeviceMaps :=
  ⟨false, false, false, false, false, false, false⟩

/-- `stopCasting` success path (`player.stop` callback, src/lib/cast.js
lines 234-241): deletes the device from all seven maps. -/
def stopCastingCleanup (m : DeviceMaps) : DeviceMaps :=
  { m with session := false, playback := false, bufferHealth := false,
           recovery := false, deviceClient := false, connHealth := false,
           stats := false }

/-- `player.on('close')` handler (src/lib/cast.js lines 193-203): the
receiver reported the player closed; deletes the device from all seven
maps. -/
def playerCloseCleanup (m : DeviceMaps) : DeviceMaps :=
  { m with session := false, playback := false, bufferHealth := false,
           recovery := false, deviceClient := false, connHealth := false,
           stats := false }

/-- `client.on('error')` handler (src/lib/cast.js lines 208-216): deletes
the device from `activeSessions`, `playbackTracking`, `deviceToClientMap`
and `streamStats` only. -/
def clientErrorCleanup (m : DeviceMaps) : DeviceMaps :=
  { m with session := false, playback := false, deviceClient := false,
           stats := false }

/-- `stopCasting` catch path (src/lib/cast.js lines 246-251), taken when
`player.stop` throws synchronously: deletes the device from
`activeSessions`, `streamRecovery`, `deviceToClientMap` and `streamStats`
only. -/
def stopCastingCatchCleanup (m : DeviceMaps) : DeviceMaps :=
  { m with session := false, recovery := false, deviceClient := false,
           stats := false }

/-- **C5 (code bug).** The user-stop success path and the receiver-close
path delete every per-device record, but the cast-client error path
deletes only four of the seven maps: starting from a fully populated
session it leaves the buffer-health, stream-recovery and
connection-health records behind — a proper non-empty subset survives
that teardown path, contradicting the claimed invariant. -/
theorem clientError_teardown_leaves_records :
    stopCastingCleanup allMapsPresent = noMapsPresent ∧
    playerCloseCleanup allMapsPresent = noMapsPresent ∧
    clientErrorCleanup allMapsPresent ≠ noMapsPresent ∧
    (clientErrorCleanup allMapsPresent).session = false ∧
    (clientErrorCleanup allMapsPresent).playback = false ∧
    (clientErrorCleanup allMapsPresent).deviceClient = false ∧
    (clientErrorCleanup allMapsPresent).stats = false ∧
    (clientErrorCleanup allMapsPresent).bufferHealth = true ∧
    (clientErrorCleanup allMapsPresent).recovery = true ∧
    (clientErrorCleanup allMapsPresent).connHealth = true := by
  decide

/-! ## Stall detection and recovery (src/lib/recovery.js)

Playback states reported by the receiver (`status.playerState`). -/

inductive PState where
  | PLAYING
  | BUFFERING
  | PAUSED
  | IDLE
  | OTHER
deriving DecidableEq

/-- Constants `MAX_RECOVERY_ATTEMPTS` and `STALL_TIMEOUT`
(src/lib/utils.js). -/
def MAX_RECOVERY_ATTEMPTS : Nat := 3

def STALL_TIMEOUT : Int := 15000

/-- The per-device `streamRecovery` record
(`initializeStreamRecovery`, src/lib/recovery.js lines 17-28). -/
structure RecoveryRec where
  lastProxyRequest : Int
  bufferingStartTime : Option Int
  stallDetected : Bool
  recoveryAttempts : Nat
  lastRecoveryAttempt : Option Int
  streamUrl : List Char
  referer : List Char
deriving DecidableEq

/-- `initializeStreamRecovery(deviceIp, streamUrl, referer)`. -/
def initializeStreamRecovery (now : Int) (streamUrl referer : List Char) : RecoveryRec :=
  { lastProxyRequest := now
    bufferingStartTime := none
    stallDetected := false
    recoveryAttempts := 0
    lastRecoveryAttempt := none
    streamUrl := streamUrl
    referer := referer }

/-- `trackStreamActivity(deviceIp)` (src/lib/recovery.js lines 9-15), for a
device that has a recovery record: refresh `lastProxyRequest` and clear
the stall flag. -/
def trackStreamActivity (now : Int) (r : RecoveryRec) : RecoveryRec :=
  { r with lastProxyRequest := now, stallDetected := false }

/-- The view of the device's buffer-health record that `checkStreamStalls`
reads: the last observed playback state and the start time of the
buffering interval in progress, if any. -/
structure BufView where
  lastState : Option PState
  lastBufferStart : Option Int
deriving DecidableEq

/-- The body of `checkStreamStalls` (src/lib/recovery.js lines 30-74) for
one device on one 10-second poll tick.  `bh` is the device's
`bufferHealthTracking` entry (`none` when absent), `hasSession` whether
`activeSessions` holds the device.  Returns the updated recovery record
and whether a recovery attempt was fired on this tick.  The state effects
of the asynchronous `attemptStreamRecovery` load callback are modelled as
separate events (`RecEvent.recoveryLoadOk` / `recoveryLoadErr`).
A `lastBufferStart` timestamp of 0 is treated as present (in JS the value
is a `Date.now()` result, never 0). -/
def checkStreamStalls (now : Int) (hasSession : Bool) (bh : Option BufView)
    (r : RecoveryRec) : RecoveryRec × Bool :=
  match bh with
  | some b =>
    match b.lastState, b.lastBufferStart with
    | some PState.BUFFERING, some bufStart =>
      let bufferingDuration := now - bufStart
      let timeSinceLastRequest := now - r.lastProxyRequest
      if bufferingDuration > STALL_TIMEOUT ∧ timeSinceLastRequest > STALL_TIMEOUT then
        if r.stallDetected = false ∧ r.recoveryAttempts < MAX_RECOVERY_ATTEMPTS then
          ({ r with stallDetected := true,
                    recoveryAttempts := r.recoveryAttempts + 1,
                    lastRecoveryAttempt := some now }, true)
        else (r, false)
      else (r, false)
    | lastState, _lastBufferStart =>
      if lastState = some PState.IDLE then
        let timeSinceLastRequest := now - r.lastProxyRequest
        let recoveryOk :=
          match r.lastRecoveryAttempt with
          | some t => decide (now - t > 5000)
          | none => true
        if hasSession ∧ timeSinceLastRequest > 15000 ∧ recoveryOk = true ∧
           r.stallDetected = false ∧ r.recoveryAttempts < MAX_RECOVERY_ATTEMPTS then
          ({ r with stallDetected := true,
                    recoveryAttempts := r.recoveryAttempts + 1,
                    lastRecoveryAttempt := some now }, true)
        else (r, false)
      else
        if r.stallDetected = true ∧ lastState = some PState.PLAYING then
          if now - r.lastProxyRequest < 10000 then
            let timeSinceLastRecovery : Int :=
              match r.lastRecoveryAttempt with
              | some t => now - t
              | none => 0
            if timeSinceLastRecovery > 30000 then
              ({ r with recoveryAttempts := 0, stallDetected := false }, false)
            else (r, false)
          else (r, false)
        else (r, false)
  | none => (r, false)

/-- Asynchronous events touching one device's recovery record:
a proxy request (`trackStreamActivity`), a stall-poll tick
(`checkStreamStalls`), and the success/failure callback of
`player.load` inside `attemptStreamRecovery`
(src/lib/recovery.js lines 114-145; success sets
`lastProxyRequest = Date.now()` and clears the stall flag, failure leaves
the record unchanged). -/
inductive RecEvent where
  | proxyRequest (t : Int)
  | stallTick (t : Int) (hasSession : Bool) (bh : Option BufView)
  | recoveryLoadOk (t : Int)
  | recoveryLoadErr

/-- One event's effect on the recovery record. -/
def recStep (r : RecoveryRec) : RecEvent → RecoveryRec
  | RecEvent.proxyRequest t => trackStreamActivity t r
  | RecEvent.stallTick t hs bh => (checkStreamStalls t hs bh r).1
  | RecEvent.recoveryLoadOk t =>
      { r with lastProxyRequest := t, stallDetected := false }
  | RecEvent.recoveryLoadErr => r

/-- Single-step preservation of the attempt bound. -/
theorem recStep_attempts_le (r : RecoveryRec) (e : RecEvent)
    (h : r.recoveryAttempts ≤ 3) : (recStep r e).recoveryAttempts ≤ 3 := by
  cases e with
  | proxyRequest t => simpa [recStep, trackStreamActivity] using h
  | stallTick t hs bh =>
    simp only [recStep, checkStreamStalls]
    cases bh with
    | none => exact h
    | some b =>
      rcases b with ⟨ls, lbs⟩
      cases ls with
      | none => simp only; split <;> simp_all
      | some s =>
        cases s <;> cases lbs <;>
          simp only [MAX_RECOVERY_ATTEMPTS] <;>
          split <;> (try split) <;> (try split) <;> (try split) <;>
          simp_all <;> omega
  | recoveryLoadOk t => simpa [recStep] using h
  | recoveryLoadErr => simpa [recStep] using h

/-- A tick whose buffer view reports `BUFFERING` and whose incoming record
already has the stall flag set changes neither the flag nor the counter. -/
theorem checkStreamStalls_buffering_guarded (now : Int) (hs : Bool)
    (lbs : Option Int) (r : RecoveryRec) (hstall : r.stallDetected = true) :
    (checkStreamStalls now hs (some ⟨some PState.BUFFERING, lbs⟩) r).1.stallDetected = true ∧
    (checkStreamStalls now hs (some ⟨some PState.BUFFERING, lbs⟩) r).1.recoveryAttempts
      = r.recoveryAttempts := by
  cases lbs with
  | none => simp [checkStreamStalls, hstall]
  | some b =>
    simp only [checkStreamStalls]
    split
    · split
      · simp_all
      · exact ⟨hstall, rfl⟩
    · exact ⟨hstall, rfl⟩

/-- **C6.** (a) Starting from `initializeStreamRecovery`, the
recovery-attempt counter never exceeds `MAX_RECOVERY_ATTEMPTS = 3` under
any sequence of proxy requests, stall-poll ticks and recovery-load
callbacks.  (b) A tick that fires a recovery attempt leaves the
`stallDetected` guard set.  (c) Once the guard is set, any further run of
stall-poll ticks observing a continuing `BUFFERING` window (no proxy
request and no recovery-load success in between) fires no further
attempt: the counter is unchanged. -/
theorem recovery_attempts_bounded_and_single_fire :
    (∀ (t0 : Int) (u rf : List Char) (evs : List RecEvent),
      (evs.foldl recStep (initializeStreamRecovery t0 u rf)).recoveryAttempts ≤ 3) ∧
    (∀ (now : Int) (hs : Bool) (bh : Option BufView) (r : RecoveryRec),
      (checkStreamStalls now hs bh r).2 = true →
      (checkStreamStalls now hs bh r).1.stallDetected = true) ∧
    (∀ (r : RecoveryRec), r.stallDetected = true →
      ∀ (evs : List RecEvent),
        (∀ e ∈ evs, ∃ t hsess lbs,
          e = RecEvent.stallTick t hsess (some ⟨some PState.BUFFERING, lbs⟩)) →
        (evs.foldl recStep r).recoveryAttempts = r.recoveryAttempts ∧
        (evs.foldl recStep r).stallDetected = true) := by
  refine ⟨?_, ?_, ?_⟩
  · intro t0 u rf evs
    have key : ∀ (evs : List RecEvent) (r : RecoveryRec),
        r.recoveryAttempts ≤ 3 → (evs.foldl recStep r).recoveryAttempts ≤ 3 := by
      intro evs
      induction evs with
      | nil => intro r h; simpa using h
      | cons e rest ih =>
        intro r h
        simpa [List.foldl_cons] using ih (recStep r e) (recStep_attempts_le r e h)
    exact key evs _ (by simp [initializeStreamRecovery])
  · intro now hs bh r hfired
    rcases bh with _ | b
    · simp [checkStreamStalls] at hfired
    · rcases b with ⟨ls, lbs⟩
      cases ls with
      | none =>
        simp only [checkStreamStalls] at hfired ⊢
        split at hfired <;> simp_all
      | some s =>
        cases s <;> cases lbs <;>
          simp only [checkStreamStalls] at hfired ⊢ <;>
          split at hfired <;> (try split at hfired) <;>
          (try split at hfired) <;> (try split at hfired) <;> simp_all
  · intro r hstall evs
    induction evs generalizing r with
    | nil => intro _; exact ⟨rfl, hstall⟩
    | cons e rest ih =>
      intro hall
      obtain ⟨t, hsess, lbs, he⟩ := hall e (List.mem_cons_self e rest)
      subst he
      have hg := checkStreamStalls_buffering_guarded t hsess lbs r hstall
      have := ih (recStep r (RecEvent.stallTick t hsess (some ⟨some PState.BUFFERING, lbs⟩)))
        (by simpa [recStep] using hg.1)
        (fun e hm => hall e (List.mem_cons_of_mem _ hm))
      simp only [List.foldl_cons]
      refine ⟨?_, this.2⟩
      rw [this.1]
      simpa [recStep] using hg.2

/-- Witness for `recovery_attempts_bounded_and_single_fire`: a record that
stalls at time 0 and is polled twice more during the same buffering
window fires exactly one attempt, and a 20-tick run keeps the counter at
most 3. -/
theorem recovery_attempts_bounded_and_single_fire_witness :
    ([RecEvent.stallTick 16000 true (some ⟨some PState.BUFFERING, some 0⟩),
      RecEvent.stallTick 26000 true (some ⟨some PState.BUFFERING, some 0⟩),
      RecEvent.stallTick 36000 true (some ⟨some PState.BUFFERING, some 0⟩)].foldl
        recStep (initializeStreamRecovery (-16000) [] [])).recoveryAttempts ≤ 3 ∧
    ((([RecEvent.stallTick 26000 true (some ⟨some PState.BUFFERING, some 0⟩),
        RecEvent.stallTick 36000 true (some ⟨some PState.BUFFERING, some 0⟩)].foldl
          recStep
          { lastProxyRequest := -16000, bufferingStartTime := none,
            stallDetected := true, recoveryAttempts := 1,
            lastRecoveryAttempt := some 16000, streamUrl := [], referer := [] })).recoveryAttempts
      = 1) := by
  have h := recovery_attempts_bounded_and_single_fire
  constructor
  · exact h.1 (-16000) [] []
      [RecEvent.stallTick 16000 true (some ⟨some PState.BUFFERING, some 0⟩),
       RecEvent.stallTick 26000 true (some ⟨some PState.BUFFERING, some 0⟩),
       RecEvent.stallTick 36000 true (some ⟨some PState.BUFFERING, some 0⟩)]
  · exact (h.2.2
      { lastProxyRequest := -16000, bufferingStartTime := none,
        stallDetected := true, recoveryAttempts := 1,
        lastRecoveryAttempt := some 16000, streamUrl := [], referer := [] }
      rfl
      [RecEvent.stallTick 26000 true (some ⟨some PState.BUFFERING, some 0⟩),
       RecEvent.stallTick 36000 true (some ⟨some PState.BUFFERING, some 0⟩)]
      (by
        intro e he
        simp only [List.mem_cons, List.mem_singleton] at he
        rcases he with h1 | h1 | h1
        · exact ⟨26000, true, some 0, h1⟩
        · exact ⟨36000, true, some 0, h1⟩
        · cases h1)).1

/-- A stall-poll tick that strictly decreases the recovery-attempt counter
must have taken the reset branch, with all of that branch's conditions. -/
theorem checkStreamStalls_decrease (now : Int) (hs : Bool) (bh : Option BufView)
    (r : RecoveryRec)
    (hlt : (checkStreamStalls now hs bh r).1.recoveryAttempts < r.recoveryAttempts) :
    (checkStreamStalls now hs bh r).1.recoveryAttempts = 0 ∧
    r.stallDetected = true ∧
    (∃ b, bh = some b ∧ b.lastState = some PState.PLAYING) ∧
    now - r.lastProxyRequest < 10000 ∧
    (match r.lastRecoveryAttempt with
     | some ta => now - ta
     | none => (0 : Int)) > 30000 := by
  rcases bh with _ | ⟨ls, lbs⟩
  · simp [checkStreamStalls] at hlt
  · cases ls with
    | none =>
      simp only [checkStreamStalls] at hlt
      split at hlt <;> (try split at hlt) <;> simp_all
    | some s =>
      cases s <;> cases lbs <;>
        · simp only [checkStreamStalls] at hlt ⊢
          split at hlt <;> (try split at hlt) <;> (try split at hlt) <;>
            (try split at hlt) <;> simp_all

/-- **C10.** A proxy request (`trackStreamActivity`) immediately clears the
`stallDetected` flag and never changes the recovery-attempt counter; no
event decreases the counter except a stall-poll tick taking the reset
branch, which requires a last observed state of `PLAYING`, proxy
activity within the last 10 s, and more than 30 s since the last
recovery attempt, and sets the counter to 0. -/
theorem proxy_activity_clears_stall_only_reset_decrements :
    (∀ (now : Int) (r : RecoveryRec),
      (trackStreamActivity now r).stallDetected = false ∧
      (trackStreamActivity now r).recoveryAttempts = r.recoveryAttempts) ∧
    (∀ (r : RecoveryRec) (e : RecEvent),
      (recStep r e).recoveryAttempts < r.recoveryAttempts →
      ∃ t hs bh, e = RecEvent.stallTick t hs bh ∧
        (recStep r e).recoveryAttempts = 0 ∧
        r.stallDetected = true ∧
        (∃ b, bh = some b ∧ b.lastState = some PState.PLAYING) ∧
        t - r.lastProxyRequest < 10000 ∧
        (match r.lastRecoveryAttempt with
         | some ta => t - ta
         | none => (0 : Int)) > 30000) := by
  constructor
  · intro now r
    exact ⟨rfl, rfl⟩
  · intro r e hlt
    cases e with
    | proxyRequest t =>
      exact absurd hlt (by simp [recStep, trackStreamActivity])
    | recoveryLoadOk t =>
      exact absurd hlt (by simp [recStep])
    | recoveryLoadErr =>
      exact absurd hlt (by simp [recStep])
    | stallTick t hs bh =>
      simp only [recStep] at hlt ⊢
      exact ⟨t, hs, bh, rfl, checkStreamStalls_decrease t hs bh r hlt⟩

/-- Witness for `proxy_activity_clears_stall_only_reset_decrements`: a
proxy request at time 5000 clears a set stall flag without touching a
counter of 2, and a reset-branch tick at time 40000 (state PLAYING,
recent activity, last attempt at time 0) zeroes the counter. -/
theorem proxy_activity_clears_stall_only_reset_decrements_witness :
    (trackStreamActivity 5000
      { lastProxyRequest := 0, bufferingStartTime := none, stallDetected := true,
        recoveryAttempts := 2, lastRecoveryAttempt := some 0,
        streamUrl := [], referer := [] }).stallDetected = false ∧
    (trackStreamActivity 5000
      { lastProxyRequest := 0, bufferingStartTime := none, stallDetected := true,
        recoveryAttempts := 2, lastRecoveryAttempt := some 0,
        streamUrl := [], referer := [] }).recoveryAttempts = 2 ∧
    (recStep
      { lastProxyRequest := 39000, bufferingStartTime := none, stallDetected := true,
        recoveryAttempts := 2, lastRecoveryAttempt := some 0,
        streamUrl := [], referer := [] }
      (RecEvent.stallTick 40000 true
        (some ⟨some PState.PLAYING, none⟩))).recoveryAttempts = 0 := by
  have h1 := proxy_activity_clears_stall_only_reset_decrements.1 5000
    { lastProxyRequest := 0, bufferingStartTime := none, stallDetected := true,
      recoveryAttempts := 2, lastRecoveryAttempt := some 0,
      streamUrl := [], referer := [] }
  have h2 := proxy_activity_clears_stall_only_reset_decrements.2
    { lastProxyRequest := 39000, bufferingStartTime := none, stallDetected := true,
      recoveryAttempts := 2, lastRecoveryAttempt := some 0,
      streamUrl := [], referer := [] }
    (RecEvent.stallTick 40000 true (some ⟨some PState.PLAYING, none⟩))
    (by decide)
  obtain ⟨t, hs, bh, _, hzero, -⟩ := h2
  exact ⟨h1.1, h1.2, hzero⟩

/-! ## Connection health monitor (src/lib/health.js) -/

inductive ConnState where
  | healthy
  | degraded
  | unhealthy
  | reconnecting
  | failed
deriving DecidableEq

/-- Constants from src/lib/utils.js. -/
def HEARTBEAT_INTERVAL : Int := 5000

def MAX_MISSED_HEARTBEATS : Nat := 3

def RECONNECT_DELAY : Int := 10000

def MAX_RECONNECT_ATTEMPTS : Nat := 3

/-- The per-device `connectionHealth` record
(`initializeConnectionHealth`, src/lib/health.js lines 10-26). -/
structure HealthRec where
  lastHeartbeat : Int
  missedHeartbeats : Nat
  connectionState : ConnState
  reconnectAttempts : Nat
  lastActivity : Int
deriving DecidableEq

/-- `initializeConnectionHealth(deviceIp)`. -/
def initializeConnectionHealth (now : Int) : HealthRec :=
  { lastHeartbeat := now, missedHeartbeats := 0,
    connectionState := ConnState.healthy, reconnectAttempts := 0,
    lastActivity := now }

/-- `updateHeartbeat(deviceIp)` (src/lib/health.js lines 28-46), for a
device that has a health record: refresh timestamps, zero the missed
count, and if the state was not healthy return it to healthy and reset
the reconnect-attempt counter. -/
def updateHeartbeat (now : Int) (h : HealthRec) : HealthRec :=
  let h1 := { h with lastHeartbeat := now, lastActivity := now, missedHeartbeats := 0 }
  if h1.connectionState ≠ ConnState.healthy then
    { h1 with connectionState := ConnState.healthy, reconnectAttempts := 0 }
  else h1

/-- The body of `checkConnectionHealth` (src/lib/health.js lines 48-93) for
one device on one 5-second poll tick.  Returns `none` for the record when
it is garbage-collected (no active session), and the delay of the
reconnect attempt scheduled by `setTimeout`, if one was scheduled. -/
def checkConnectionHealth (now : Int) (hasSession : Bool) (h : HealthRec) :
    Option HealthRec × Option Int :=
  match hasSession with
  | false => (none, none)
  | true =>
    let timeSinceLastHeartbeat := now - h.lastHeartbeat
    if timeSinceLastHeartbeat > HEARTBEAT_INTERVAL then
      let missed := (timeSinceLastHeartbeat.fdiv HEARTBEAT_INTERVAL).toNat
      if missed ≥ MAX_MISSED_HEARTBEATS then
        if h.connectionState = ConnState.unhealthy ∨
           h.connectionState = ConnState.reconnecting then
          (some { h with missedHeartbeats := missed }, none)
        else
          (some { h with missedHeartbeats := missed,
                         connectionState := ConnState.unhealthy },
           if h.reconnectAttempts < MAX_RECONNECT_ATTEMPTS then
             some RECONNECT_DELAY
           else none)
      else if missed ≥ 2 then
        if h.connectionState = ConnState.healthy then
          (some { h with missedHeartbeats := missed,
                         connectionState := ConnState.degraded }, none)
        else (some { h with missedHeartbeats := missed }, none)
      else (some { h with missedHeartbeats := missed }, none)
    else (some h, none)

/-- Entry of `attemptReconnect(deviceIp)` (src/lib/health.js lines 95-109):
a record in the healthy state makes the call a no-op; otherwise the
attempt counter is incremented and the state becomes `reconnecting`.
Returns the updated record and whether the probe proceeds. -/
def attemptReconnectEntry (h : HealthRec) : HealthRec × Bool :=
  if h.connectionState = ConnState.healthy then (h, false)
  else ({ h with reconnectAttempts := h.reconnectAttempts + 1,
                 connectionState := ConnState.reconnecting }, true)

/-- The `player.getStatus` callback inside `attemptReconnect`
(src/lib/health.js lines 114-129).  `ok` is `!err && status`.  On success
the record goes through `updateHeartbeat`; on failure the record is left
unchanged and, when the attempt budget is exhausted, a terminal `failed`
connection-health message is broadcast (second component). -/
def attemptReconnectResult (now : Int) (ok : Bool) (h : HealthRec) :
    HealthRec × Bool :=
  if ok then (updateHeartbeat now h, false)
  else (h, decide (h.reconnectAttempts ≥ MAX_RECONNECT_ATTEMPTS))

/-- **C7.** On a poll tick for a device with an active session: when the
elapsed time since the last heartbeat exceeds the 5 s interval the missed
count becomes `⌊elapsed / 5000⌋`; a healthy device whose (possibly
recomputed) missed count is at most 1 stays healthy; a missed count of
exactly 2 moves the device to degraded only from healthy; a missed count
of at least 3 moves it to unhealthy only when it is not already unhealthy
or reconnecting, scheduling exactly one reconnect attempt 10 s later iff
additionally fewer than 3 reconnect attempts have been made. -/
theorem connection_health_tick_transitions (now : Int) (h : HealthRec) :
    (∀ h', (checkConnectionHealth now true h).1 = some h' →
      now - h.lastHeartbeat > 5000 →
      (h'.missedHeartbeats : Int) = (now - h.lastHeartbeat).fdiv 5000) ∧
    (∀ h', (checkConnectionHealth now true h).1 = some h' →
      h.connectionState = ConnState.healthy →
      h'.missedHeartbeats ≤ 1 →
      h'.connectionState = ConnState.healthy) ∧
    (∀ h', (checkConnectionHealth now true h).1 = some h' →
      now - h.lastHeartbeat > 5000 →
      (now - h.lastHeartbeat).fdiv 5000 = 2 →
      (h.connectionState = ConnState.healthy →
        h'.connectionState = ConnState.degraded) ∧
      (h.connectionState ≠ ConnState.healthy →
        h'.connectionState = h.connectionState) ∧
      (checkConnectionHealth now true h).2 = none) ∧
    (∀ h', (checkConnectionHealth now true h).1 = some h' →
      now - h.lastHeartbeat > 5000 →
      (now - h.lastHeartbeat).fdiv 5000 ≥ 3 →
      (h.connectionState ≠ ConnState.unhealthy →
       h.connectionState ≠ ConnState.reconnecting →
        h'.connectionState = ConnState.unhealthy ∧
        (checkConnectionHealth now true h).2 =
          (if h.reconnectAttempts < 3 then some 10000 else none)) ∧
      ((h.connectionState = ConnState.unhealthy ∨
        h.connectionState = ConnState.reconnecting) →
        h'.connectionState = h.connectionState ∧
        (checkConnectionHealth now true h).2 = none)) := by
  refine ⟨?_, ?_, ?_, ?_⟩
  · intro h' hsome helapsed
    have hnn : (0 : Int) ≤ (now - h.lastHeartbeat).fdiv 5000 :=
      Int.fdiv_nonneg (by omega) (by norm_num)
    simp only [checkConnectionHealth, HEARTBEAT_INTERVAL, MAX_MISSED_HEARTBEATS,
      MAX_RECONNECT_ATTEMPTS, RECONNECT_DELAY] at hsome
    split_ifs at hsome <;> injection hsome with hh <;> subst hh <;>
      simp_all
  · intro h' hsome hstate hmissed
    simp only [checkConnectionHealth, HEARTBEAT_INTERVAL, MAX_MISSED_HEARTBEATS,
      MAX_RECONNECT_ATTEMPTS, RECONNECT_DELAY] at hsome
    split_ifs at hsome <;> injection hsome with hh <;> subst hh <;>
      (try dsimp only at hmissed ⊢) <;>
      first
        | exact hstate
        | (exfalso; omega)
  · intro h' hsome helapsed hfd
    simp only [checkConnectionHealth, HEARTBEAT_INTERVAL, MAX_MISSED_HEARTBEATS,
      MAX_RECONNECT_ATTEMPTS, RECONNECT_DELAY] at hsome ⊢
    split_ifs at hsome <;> injection hsome with hh <;> subst hh <;>
      first
        | (exfalso; omega)
        | simp_all
  · intro h' hsome helapsed hfd
    simp only [checkConnectionHealth, HEARTBEAT_INTERVAL, MAX_MISSED_HEARTBEATS,
      MAX_RECONNECT_ATTEMPTS, RECONNECT_DELAY] at hsome ⊢
    split_ifs at hsome <;> injection hsome with hh <;> subst hh <;>
      first
        | (exfalso; omega)
        | (simp_all <;> tauto)

/-- Witness for `connection_health_tick_transitions`: a fresh record whose
last heartbeat is 16 s old (3 missed intervals) transitions from healthy
to unhealthy with one reconnect attempt scheduled 10 s later. -/
theorem connection_health_tick_transitions_witness :
    ∃ h', (checkConnectionHealth 16000 true (initializeConnectionHealth 0)).1 = some h' ∧
      h'.connectionState = ConnState.unhealthy ∧
      (checkConnectionHealth 16000 true (initializeConnectionHealth 0)).2 = some 10000 := by
  have key := (connection_health_tick_transitions 16000 (initializeConnectionHealth 0)).2.2.2
    { lastHeartbeat := 0, missedHeartbeats := 3,
      connectionState := ConnState.unhealthy, reconnectAttempts := 0, lastActivity := 0 }
    (by decide) (by decide) (by decide)
  have key2 := key.1 (by decide) (by decide)
  refine ⟨_, by decide, key2.1, ?_⟩
  simpa using key2.2

/-- **C8 counterexample.** After the probe fails on the third and final
reconnect attempt, the terminal `failed` message is broadcast but the
stored connection state of the record remains `reconnecting`: the
device's connection state does not become `failed`. -/
theorem reconnect_exhausted_state_not_failed :
    ((attemptReconnectResult 20000 false
        (attemptReconnectEntry
          { lastHeartbeat := 0, missedHeartbeats := 4,
            connectionState := ConnState.unhealthy, reconnectAttempts := 2,
            lastActivity := 0 }).1).2 = true) ∧
    ((attemptReconnectResult 20000 false
        (attemptReconnectEntry
          { lastHeartbeat := 0, missedHeartbeats := 4,
            connectionState := ConnState.unhealthy, reconnectAttempts := 2,
            lastActivity := 0 }).1).1.connectionState = ConnState.reconnecting) ∧
    ConnState.reconnecting ≠ ConnState.failed := by
  decide

/-- **C8 (amended).** For a non-healthy record, a reconnect attempt
increments the counter and probes the client: on success the record
returns to healthy with the reconnect-attempt counter reset to 0; on
failure with all 3 attempts exhausted the terminal `failed` state is
broadcast while the stored state remains `reconnecting`, and the health
poll schedules no further reconnect attempts for a record in the
`reconnecting` state (a new session reinitializes the record). -/
theorem attemptReconnect_probe_outcomes (now : Int) (h : HealthRec)
    (hstate : h.connectionState ≠ ConnState.healthy) :
    ((attemptReconnectResult now true (attemptReconnectEntry h).1).1.connectionState
        = ConnState.healthy ∧
     (attemptReconnectResult now true (attemptReconnectEntry h).1).1.reconnectAttempts = 0) ∧
    ((attemptReconnectEntry h).1.reconnectAttempts ≥ 3 →
      (attemptReconnectResult now false (attemptReconnectEntry h).1).2 = true ∧
      (attemptReconnectResult now false (attemptReconnectEntry h).1).1.connectionState
        = ConnState.reconnecting) ∧
    (∀ (now2 : Int) (h2 : HealthRec), h2.connectionState = ConnState.reconnecting →
      (checkConnectionHealth now2 true h2).2 = none) := by
  have hentry : (attemptReconnectEntry h).1 =
      { h with reconnectAttempts := h.reconnectAttempts + 1,
               connectionState := ConnState.reconnecting } := by
    simp [attemptReconnectEntry, hstate]
  refine ⟨?_, ?_, ?_⟩
  · rw [hentry]
    simp [attemptReconnectResult, updateHeartbeat]
  · intro hex
    rw [hentry] at hex ⊢
    simp only [attemptReconnectResult, MAX_RECONNECT_ATTEMPTS]
    constructor
    · simp [hex]
    · simp
  · intro now2 h2 h2state
    simp only [checkConnectionHealth, HEARTBEAT_INTERVAL, MAX_MISSED_HEARTBEATS,
      MAX_RECONNECT_ATTEMPTS, RECONNECT_DELAY]
    split_ifs <;> simp_all

/-- Witness for `attemptReconnect_probe_outcomes`: from an unhealthy record
with 2 prior attempts, a successful probe restores health with the
counter reset, and the poll tick never schedules a reconnect while the
record is reconnecting. -/
theorem attemptReconnect_probe_outcomes_witness :
    ((attemptReconnectResult 20000 true
        (attemptReconnectEntry
          { lastHeartbeat := 0, missedHeartbeats := 4,
            connectionState := ConnState.unhealthy, reconnectAttempts := 2,
            lastActivity := 0 }).1).1.connectionState = ConnState.healthy) ∧
    (checkConnectionHealth 40000 true
      { lastHeartbeat := 0, missedHeartbeats := 4,
        connectionState := ConnState.reconnecting, reconnectAttempts := 3,
        lastActivity := 0 }).2 = none := by
  have key := attemptReconnect_probe_outcomes 20000
    { lastHeartbeat := 0, missedHeartbeats := 4,
      connectionState := ConnState.unhealthy, reconnectAttempts := 2,
      lastActivity := 0 }
    (by decide)
  exact ⟨key.1.1, key.2.2 40000
    { lastHeartbeat := 0, missedHeartbeats := 4,
      connectionState := ConnState.reconnecting, reconnectAttempts := 3,
      lastActivity := 0 } rfl⟩

/-! ## Buffer health tracker (src/lib/stats.js)

The tracker consumes `(time, playerState)` observations; durations are in
fractional seconds (`Rat`), as the source divides millisecond differences
by 1000. -/

structure BufTrack where
  bufferingEvents : Nat
  totalBufferingTime : Rat
  lastBufferStart : Option Int
  lastState : Option PState
  sessionStartTime : Option Int
  hasPlayed : Bool
deriving DecidableEq

/-- The record created on a device's first observation
(src/lib/stats.js lines 7-17). -/
def freshBufTrack : BufTrack :=
  { bufferingEvents := 0, totalBufferingTime := 0, lastBufferStart := none,
    lastState := none, sessionStartTime := none, hasPlayed := false }

/-- `trackBufferHealth(deviceIp, playerState)` (src/lib/stats.js
lines 4-45): one observation's effect on the device's tracking record
(`none` when the device has no record yet). -/
def trackBufferHealth (now : Int) (playerState : PState) (tr0 : Option BufTrack) :
    BufTrack :=
  let tracking := tr0.getD freshBufTrack
  let t1 :=
    if playerState = PState.PLAYING ∧ tracking.hasPlayed = false then
      { tracking with hasPlayed := true, sessionStartTime := some now }
    else tracking
  let t2 :=
    if t1.hasPlayed = true then
      if playerState = PState.BUFFERING ∧ t1.lastState ≠ some PState.BUFFERING then
        { t1 with bufferingEvents := t1.bufferingEvents + 1,
                  lastBufferStart := some now }
      else if t1.lastState = some PState.BUFFERING ∧ playerState ≠ PState.BUFFERING then
        match t1.lastBufferStart with
        | some b =>
          { t1 with totalBufferingTime :=
                      t1.totalBufferingTime + ((now - b : Int) : Rat) / 1000,
                    lastBufferStart := none }
        | none => t1
      else t1
    else t1
  { t2 with lastState := some playerState }

/-- The stats object returned by `getBufferHealthStats`. -/
structure BufferStats where
  healthScore : Int
  bufferingEvents : Nat
  totalBufferingTime : Int
deriving DecidableEq

/-- JS `Math.round` on an exact rational: round half toward positive
infinity. -/
def jsRound (q : Rat) : Int :=
  (q + 1 / 2).floor

/-- `getBufferHealthStats(deviceIp)` (src/lib/stats.js lines 47-71).
`sessionStartTime.getD 0` is only reached when `hasPlayed` is true, in
which case the field is always set. -/
def getBufferHealthStats (now : Int) (tr0 : Option BufTrack) : BufferStats :=
  match tr0 with
  | none => { healthScore := 100, bufferingEvents := 0, totalBufferingTime := 0 }
  | some tracking =>
    if tracking.hasPlayed = false then
      { healthScore := 100, bufferingEvents := 0, totalBufferingTime := 0 }
    else
      let currentBufferingTime : Rat :=
        tracking.totalBufferingTime +
          (match tracking.lastBufferStart with
           | some b => ((now - b : Int) : Rat) / 1000
           | none => 0)
      let totalSessionTime : Rat :=
        ((now - tracking.sessionStartTime.getD 0 : Int) : Rat) / 1000
      let playingTime := totalSessionTime - currentBufferingTime
      let healthScore : Int :=
        if totalSessionTime > 0 then jsRound (playingTime / totalSessionTime * 100)
        else 100
      { healthScore := max 0 (min 100 healthScore),
        bufferingEvents := tracking.bufferingEvents,
        totalBufferingTime := jsRound currentBufferingTime }

/-- Folding a list of `(time, playerState)` observations through the
tracker, starting from a device with no record. -/
def runTrack (obs : List (Int × PState)) : Option BufTrack :=
  obs.foldl (fun acc p => some (trackBufferHealth p.1 p.2 acc)) none

/-- An observation that is not `PLAYING` cannot set `hasPlayed`. -/
theorem trackBufferHealth_hasPlayed_of_not_playing (now : Int) (st : PState)
    (tr0 : Option BufTrack) (hst : st ≠ PState.PLAYING)
    (h0 : (tr0.getD freshBufTrack).hasPlayed = false) :
    (trackBufferHealth now st tr0).hasPlayed = false := by
  simp only [trackBufferHealth]
  split_ifs with h1 h2 <;> simp_all

/-- Once playback has started, every later observation preserves
`hasPlayed` and the session-clock start. -/
theorem trackBufferHealth_preserves_session (now : Int) (st : PState)
    (tr : BufTrack) (hp : tr.hasPlayed = true) :
    (trackBufferHealth now st (some tr)).hasPlayed = true ∧
    (trackBufferHealth now st (some tr)).sessionStartTime = tr.sessionStartTime := by
  simp only [trackBufferHealth, Option.getD_some]
  split_ifs <;> (try split) <;> simp_all

/-- The first `PLAYING` observation starts the session clock. -/
theorem trackBufferHealth_first_playing (now : Int) (tr0 : Option BufTrack)
    (h0 : (tr0.getD freshBufTrack).hasPlayed = false) :
    (trackBufferHealth now PState.PLAYING tr0).hasPlayed = true ∧
    (trackBufferHealth now PState.PLAYING tr0).sessionStartTime = some now := by
  simp only [trackBufferHealth]
  split_ifs <;> (try split) <;> simp_all

/-- Over observations that never report `PLAYING`, the fold keeps
`hasPlayed` false (or produces no record at all). -/
theorem runTrack_no_playing (obs : List (Int × PState))
    (h : ∀ p ∈ obs, p.2 ≠ PState.PLAYING) :
    ∀ tr0 : Option BufTrack, (tr0.getD freshBufTrack).hasPlayed = false →
      (((obs.foldl (fun acc p => some (trackBufferHealth p.1 p.2 acc)) tr0).getD
          freshBufTrack).hasPlayed = false) := by
  induction obs with
  | nil => intro tr0 h0; simpa using h0
  | cons p rest ih =>
    intro tr0 h0
    simp only [List.foldl_cons]
    exact ih (fun q hq => h q (List.mem_cons_of_mem _ hq)) _
      (by
        simpa using trackBufferHealth_hasPlayed_of_not_playing p.1 p.2 tr0
          (h p (List.mem_cons_self p rest)) h0)

/-- Once set, `hasPlayed` and the session start survive any further fold. -/
theorem runTrack_preserves_session (rest : List (Int × PState)) :
    ∀ (tr : BufTrack), tr.hasPlayed = true →
      ∃ tr', rest.foldl (fun acc p => some (trackBufferHealth p.1 p.2 acc)) (some tr)
              = some tr' ∧
        tr'.hasPlayed = true ∧ tr'.sessionStartTime = tr.sessionStartTime := by
  induction rest with
  | nil => intro tr hp; exact ⟨tr, rfl, hp, rfl⟩
  | cons p rest ih =>
    intro tr hp
    have step := trackBufferHealth_preserves_session p.1 p.2 tr hp
    obtain ⟨tr', hfold, hp', hs'⟩ := ih (trackBufferHealth p.1 p.2 (some tr)) step.1
    exact ⟨tr', by simpa using hfold, hp', by rw [hs', step.2]⟩

set_option maxHeartbeats 1000000 in
/-- **C9.** (range) The reported health score always lies in `[0, 100]`.
(pre-play) For any observation sequence with no `PLAYING` state, the
stats are score 100 with zero buffering events and zero buffering time.
(clock) The session clock starts at the first `PLAYING` observation.
(formula) After playback has started, with a positive session clock, the
score equals
`clamp(0, 100, round(100 * (elapsed - bufferingSoFar) / elapsed))` where
`elapsed` is the (fractional-second) time since the session start and
`bufferingSoFar` adds any in-progress buffering interval to the
accumulated total. -/
theorem buffer_health_score_properties :
    (∀ (now : Int) (tr0 : Option BufTrack),
      0 ≤ (getBufferHealthStats now tr0).healthScore ∧
      (getBufferHealthStats now tr0).healthScore ≤ 100) ∧
    (∀ (obs : List (Int × PState)) (now : Int),
      (∀ p ∈ obs, p.2 ≠ PState.PLAYING) →
      getBufferHealthStats now (runTrack obs) =
        { healthScore := 100, bufferingEvents := 0, totalBufferingTime := 0 }) ∧
    (∀ (pre : List (Int × PState)) (t : Int) (rest : List (Int × PState)),
      (∀ p ∈ pre, p.2 ≠ PState.PLAYING) →
      ∃ tr', runTrack (pre ++ (t, PState.PLAYING) :: rest) = some tr' ∧
        tr'.hasPlayed = true ∧ tr'.sessionStartTime = some t) ∧
    (∀ (now s : Int) (tr : BufTrack),
      tr.hasPlayed = true → tr.sessionStartTime = some s →
      0 < ((now - s : Int) : Rat) / 1000 →
      (getBufferHealthStats now (some tr)).healthScore =
        max 0 (min 100 (jsRound
          (100 * (((now - s : Int) : Rat) / 1000 -
              (tr.totalBufferingTime +
                (match tr.lastBufferStart with
                 | some b => ((now - b : Int) : Rat) / 1000
                 | none => 0))) /
            (((now - s : Int) : Rat) / 1000))))) := by
  refine ⟨?_, ?_, ?_, ?_⟩
  · intro now tr0
    match tr0 with
    | none => simp [getBufferHealthStats]
    | some tracking =>
      simp only [getBufferHealthStats]
      split_ifs
      · exact ⟨by norm_num, by norm_num⟩
      · exact ⟨le_max_left 0 _, max_le (by norm_num) (min_le_left _ _)⟩
      · exact ⟨le_max_left 0 _, max_le (by norm_num) (min_le_left _ _)⟩
  · intro obs now h
    have hfp := runTrack_no_playing obs h none (by simp [freshBufTrack])
    cases hr : runTrack obs with
    | none => simp [getBufferHealthStats]
    | some tr =>
      rw [runTrack] at hr
      rw [hr] at hfp
      simp only [Option.getD_some] at hfp
      simp [getBufferHealthStats, hfp]
  · intro pre t rest hpre
    have hfalse := runTrack_no_playing pre hpre none (by simp [freshBufTrack])
    have hfirst := trackBufferHealth_first_playing t
      (pre.foldl (fun acc p => some (trackBufferHealth p.1 p.2 acc)) none) hfalse
    obtain ⟨tr', hfold, hp', hs'⟩ := runTrack_preserves_session rest
      (trackBufferHealth t PState.PLAYING
        (pre.foldl (fun acc p => some (trackBufferHealth p.1 p.2 acc)) none)) hfirst.1
    refine ⟨tr', ?_, hp', by rw [hs', hfirst.2]⟩
    rw [runTrack, List.foldl_append, List.foldl_cons]
    exact hfold
  · intro now s tr hp hs hpos
    simp only [getBufferHealthStats, hp, Bool.true_eq_false, if_false, hs,
      Option.getD_some, if_pos hpos]
    congr 2
    congr 1
    ring

/-- Witness for `buffer_health_score_properties`: a session that never
played scores 100 with zero events; the clock starts at the first
`PLAYING` observation (time 1000); and a 10-second session with 2 s of
buffering scores 80. -/
theorem buffer_health_score_properties_witness :
    (getBufferHealthStats 4000 (runTrack [(0, PState.BUFFERING)]) =
      { healthScore := 100, bufferingEvents := 0, totalBufferingTime := 0 }) ∧
    (∃ tr', runTrack [(0, PState.BUFFERING), (1000, PState.PLAYING)] = some tr' ∧
      tr'.hasPlayed = true ∧ tr'.sessionStartTime = some 1000) ∧
    (getBufferHealthStats 10000
      (some { bufferingEvents := 1, totalBufferingTime := 2,
              lastBufferStart := none, lastState := some PState.PLAYING,
              sessionStartTime := some 0, hasPlayed := true })).healthScore = 80 := by
  have h := buffer_health_score_properties
  refine ⟨h.2.1 [(0, PState.BUFFERING)] 4000 (by decide), ?_, ?_⟩
  · simpa using h.2.2.1 [(0, PState.BUFFERING)] 1000 [] (by decide)
  · have h4 := h.2.2.2 10000 0
      { bufferingEvents := 1, totalBufferingTime := 2,
        lastBufferStart := none, lastState := some PState.PLAYING,
        sessionStartTime := some 0, hasPlayed := true }
      rfl rfl (by norm_num)
    rw [h4]
    norm_num [jsRound, Rat.floor_def']

/-! ## URL model

A model of the WHATWG `URL` operations the source uses (`new URL(s)`,
`new URL(rel, base)`, `.protocol`, `.href`), restricted to `http`/`https`
URLs of shape `scheme://host/path?query` — the shape of every URL the
manifest rewriter handles.  Parse failure models the `URL` constructor
throwing. -/

structure UrlModel where
  scheme : List Char
  host : List Char
  path : List Char
  query : List Char
deriving DecidableEq

/-- JS `URL.protocol`: the scheme with a trailing colon. -/
def urlProtocol (u : UrlModel) : List Char :=
  u.scheme ++ [':']

/-- JS `URL.href` for this model. -/
def urlHref (u : UrlModel) : List Char :=
  u.scheme ++ "://".data ++ u.host ++ u.path ++ u.query

/-- Split `"path?query"` into the path part and the (`?`-prefixed) query
part. -/
def splitQuery (s : List Char) : List Char × List Char :=
  (s.takeWhile (fun c => c.toNat ≠ 63), s.dropWhile (fun c => c.toNat ≠ 63))

/-- Dot-segment removal on a `/`-separated absolute path (the
normalization `URL.href` applies to resolved paths). -/
def removeDotSegments (segs : List (List Char)) : List (List Char) :=
  segs.foldl
    (fun acc seg =>
      if seg = ['.'] then acc
      else if seg = ['.', '.'] then acc.dropLast
      else acc ++ [seg])
    []

/-- Reassemble an absolute path from its segments. -/
def joinSegments (segs : List (List Char)) : List Char :=
  segs.foldl (fun acc seg => acc ++ ['/'] ++ seg) []

/-- Normalize an absolute path string (must start with `/`). -/
def normalizePath (p : List Char) : List Char :=
  let segs := (p.drop 1).splitOn '/'
  let cleaned := removeDotSegments segs
  match cleaned with
  | [] => ['/']
  | _ => joinSegments cleaned

/-- `new URL(s)` for an absolute `http`/`https` URL: scheme, nonempty
host, path (default `/`), optional query. -/
def parseUrl (s : List Char) : Option UrlModel :=
  let afterScheme : Option (List Char × List Char) :=
    if startsWithL "http://".data s then
      some ("http".data, s.drop 7)
    else if startsWithL "https://".data s then
      some ("https".data, s.drop 8)
    else none
  match afterScheme with
  | none => none
  | some (scheme, rest) =>
    let host := rest.takeWhile (fun c => c.toNat ≠ 47 ∧ c.toNat ≠ 63)
    let afterHost := rest.dropWhile (fun c => c.toNat ≠ 47 ∧ c.toNat ≠ 63)
    if host.isEmpty then none
    else
      match afterHost with
      | [] => some ⟨scheme, host, ['/'], []⟩
      | c :: _ =>
        if c.toNat = 63 then some ⟨scheme, host, ['/'], afterHost⟩
        else
          let (p, q) := splitQuery afterHost
          some ⟨scheme, host, normalizePath p, q⟩

/-- Drop the last path segment of a base path (everything after the final
`/`), keeping the `/`. -/
def dropLastSegment (p : List Char) : List Char :=
  (p.reverse.dropWhile (fun c => c.toNat ≠ 47)).reverse

/-- `new URL(rel, base)`: resolution of a (possibly relative) reference
against a base URL, for the reference shapes a manifest line can take. -/
def resolveRel (rel : List Char) (base : UrlModel) : Option UrlModel :=
  match parseUrl rel with
  | some u => some u
  | none =>
    if startsWithL "//".data rel then
      parseUrl (urlProtocol base ++ rel)
    else if rel.isEmpty then
      some base
    else if startsWithL "/".data rel then
      let (p, q) := splitQuery rel
      some { base with path := normalizePath p, query := q }
    else if startsWithL "?".data rel then
      some { base with query := rel }
    else
      let (p, q) := splitQuery rel
      some { base with path := normalizePath (dropLastSegment base.path ++ p),
                       query := q }

/-! ## Percent-encoding (JS `encodeURIComponent`) -/

/-- Characters `encodeURIComponent` leaves unescaped:
`A-Z a-z 0-9 - _ . ! ~ * ' ( )`. -/
def isUnescapedURI (c : Char) : Bool :=
  (65 ≤ c.toNat && c.toNat ≤ 90) || (97 ≤ c.toNat && c.toNat ≤ 122) ||
  (48 ≤ c.toNat && c.toNat ≤ 57) ||
  c.toNat = 45 || c.toNat = 95 || c.toNat = 46 || c.toNat = 33 ||
  c.toNat = 126 || c.toNat = 42 || c.toNat = 39 || c.toNat = 40 || c.toNat = 41

/-- Uppercase hexadecimal digit for `0 ≤ n < 16`. -/
def hexDigitChar (n : Nat) : Char :=
  if n < 10 then Char.ofNat (48 + n) else Char.ofNat (55 + n)

/-- UTF-8 encoding of one character, as byte values. -/
def utf8Bytes (c : Char) : List Nat :=
  let n := c.toNat
  if n < 128 then [n]
  else if n < 2048 then [192 + n / 64, 128 + n % 64]
  else if n < 65536 then [224 + n / 4096, 128 + (n / 64) % 64, 128 + n % 64]
  else [240 + n / 262144, 128 + (n / 4096) % 64, 128 + (n / 64) % 64, 128 + n % 64]

/-- JS `encodeURIComponent`. -/
def encodeURIComponent (s : List Char) : List Char :=
  s.flatMap (fun c =>
    if isUnescapedURI c then [c]
    else (utf8Bytes c).flatMap
      (fun b => ['%', hexDigitChar (b / 16), hexDigitChar (b % 16)]))

/-! ## M3U8 line resolution and rewriting
(src/lib/proxy.js lines 31-56 and src/routes/proxy.js lines 220-229) -/

/-- `resolveM3u8Url(line, baseUrl)` (src/lib/proxy.js lines 31-56):
`none` models `{ isUrl: false, url: null }`, `some url` models
`{ isUrl: true, url }`. -/
def resolveM3u8Url (line : List Char) (baseUrl : UrlModel) : Option (List Char) :=
  let trimmed := jsTrim line
  if trimmed.isEmpty || startsWithL "#".data trimmed then none
  else if startsWithL "http://".data trimmed || startsWithL "https://".data trimmed then
    match parseUrl trimmed with
    | some _ => some trimmed
    | none => none
  else if startsWithL "//".data trimmed then
    let absoluteUrl := urlProtocol baseUrl ++ trimmed
    match parseUrl absoluteUrl with
    | some _ => some absoluteUrl
    | none => none
  else
    match resolveRel trimmed baseUrl with
    | some u => some (urlHref u)
    | none => none

/-- The proxy URL built for a resolved line:
`http://<host>/proxy?url=<E(url)>&referer=<E(referer)>`
(src/routes/proxy.js line 227). -/
def proxyUrlFor (host referer url : List Char) : List Char :=
  "http://".data ++ host ++ "/proxy?url=".data ++ encodeURIComponent url ++
    "&referer=".data ++ encodeURIComponent referer

/-- One line of the rewrite map in src/routes/proxy.js lines 220-229.
`referer` is the request's `referer || ''`. -/
def rewriteLine (host referer : List Char) (baseUrl : UrlModel) (line : List Char) :
    List Char :=
  match resolveM3u8Url line baseUrl with
  | none => line
  | some u => proxyUrlFor host referer u

/-- Rendition of claim C1's words, for comparison with the code: identical
to `rewriteLine` except that, as the claim states, the *resolved* URL of a
non-comment line is computed from "the line itself" — not from its
trimmed form — in the absolute and protocol-relative cases, and the
relative case resolves the line itself. -/
def rewriteLineClaimC1 (host referer : List Char) (baseUrl : UrlModel)
    (line : List Char) : List Char :=
  let trimmed := jsTrim line
  if trimmed.isEmpty || startsWithL "#".data trimmed then line
  else
    let resolved : Option (List Char) :=
      if startsWithL "http://".data line || startsWithL "https://".data line then
        some line
      else if startsWithL "//".data line then
        some (urlProtocol baseUrl ++ line)
      else (resolveRel line baseUrl).map urlHref
    match resolved with
    | none => line
    | some u => proxyUrlFor host referer u

/-- **C1 counterexample.** On the line `"http://a.com/b "` (trailing
space), the code percent-encodes the *trimmed* URL (`...%2Fb`), while the
claim's "the line itself" would percent-encode the trailing space
(`...%2Fb%20`): the rewriter's output differs from the claim's output
byte-for-byte. -/
theorem rewriteLine_trailing_space_counterexample :
    rewriteLine "h".data [] ⟨"https".data, "e.com".data, "/x.m3u8".data, []⟩
        "http://a.com/b ".data =
      ("http://h/proxy?url=http%3A%2F%2Fa.com%2Fb&referer=").data ∧
    rewriteLineClaimC1 "h".data [] ⟨"https".data, "e.com".data, "/x.m3u8".data, []⟩
        "http://a.com/b ".data =
      ("http://h/proxy?url=http%3A%2F%2Fa.com%2Fb%20&referer=").data ∧
    rewriteLine "h".data [] ⟨"https".data, "e.com".data, "/x.m3u8".data, []⟩
        "http://a.com/b ".data ≠
      rewriteLineClaimC1 "h".data [] ⟨"https".data, "e.com".data, "/x.m3u8".data, []⟩
        "http://a.com/b ".data := by
  refine ⟨by decide, by decide, ?_⟩
  decide

/-- **C1 (amended).** Per manifest line: an empty, whitespace-only, or
`#`-comment line (judged on its trimmed form) passes through
byte-identical, as does a line whose URL resolution fails; every other
line becomes `http://<host>/proxy?url=<E(resolved)>&referer=<E(referer)>`
with `E` percent-encoding, where `resolved` is computed from the
*trimmed* line: the trimmed line itself when it starts with `http://` or
`https://`, the manifest URL's scheme prepended to it when it starts with
`//`, and otherwise its resolution against the manifest's own URL. -/
theorem rewriteLine_cases (host referer : List Char) (baseUrl : UrlModel)
    (line : List Char) :
    ((jsTrim line).isEmpty = true ∨ startsWithL "#".data (jsTrim line) = true →
      rewriteLine host referer baseUrl line = line) ∧
    (¬((jsTrim line).isEmpty = true ∨ startsWithL "#".data (jsTrim line) = true) →
     startsWithL "http://".data (jsTrim line) = true ∨
       startsWithL "https://".data (jsTrim line) = true →
      rewriteLine host referer baseUrl line =
        (match parseUrl (jsTrim line) with
         | some _ => proxyUrlFor host referer (jsTrim line)
         | none => line)) ∧
    (¬((jsTrim line).isEmpty = true ∨ startsWithL "#".data (jsTrim line) = true) →
     ¬(startsWithL "http://".data (jsTrim line) = true ∨
        startsWithL "https://".data (jsTrim line) = true) →
     startsWithL "//".data (jsTrim line) = true →
      rewriteLine host referer baseUrl line =
        (match parseUrl (urlProtocol baseUrl ++ jsTrim line) with
         | some _ => proxyUrlFor host referer (urlProtocol baseUrl ++ jsTrim line)
         | none => line)) ∧
    (¬((jsTrim line).isEmpty = true ∨ startsWithL "#".data (jsTrim line) = true) →
     ¬(startsWithL "http://".data (jsTrim line) = true ∨
        startsWithL "https://".data (jsTrim line) = true) →
     startsWithL "//".data (jsTrim line) = false →
      rewriteLine host referer baseUrl line =
        (match resolveRel (jsTrim line) baseUrl with
         | some u => proxyUrlFor host referer (urlHref u)
         | none => line)) := by
  refine ⟨?_, ?_, ?_, ?_⟩
  · intro h1
    rcases h1 with h | h <;> simp [rewriteLine, resolveM3u8Url, h]
  · intro h1 h2
    simp only [not_or, Bool.not_eq_true] at h1
    rcases h2 with h | h <;>
      · simp only [rewriteLine, resolveM3u8Url, h1.1, h1.2, h, Bool.or_false,
          Bool.false_or, Bool.or_true, Bool.true_or, if_false, if_true]
        cases hp : parseUrl (jsTrim line) <;> simp [hp]
  · intro h1 h2 h3
    simp only [not_or, Bool.not_eq_true] at h1 h2
    simp only [rewriteLine, resolveM3u8Url, h1.1, h1.2, h2.1, h2.2, h3,
      Bool.or_false, Bool.false_or, if_false, if_true]
    cases hp : parseUrl (urlProtocol baseUrl ++ jsTrim line) <;> simp [hp]
  · intro h1 h2 h3
    simp only [not_or, Bool.not_eq_true] at h1 h2
    simp only [rewriteLine, resolveM3u8Url, h1.1, h1.2, h2.1, h2.2, h3,
      Bool.or_false, Bool.false_or, if_false, if_true]
    cases hr : resolveRel (jsTrim line) baseUrl <;> simp [hr]

/-- Witness for `rewriteLine_cases`: a comment line passes through
unchanged; a relative line `seg01.ts` against
`https://cdn/x/live.m3u8` rewrites to the encoded proxy URL. -/
theorem rewriteLine_cases_witness :
    rewriteLine "h".data [] ⟨"https".data, "cdn".data, "/x/live.m3u8".data, []⟩
        "#EXTINF:4.0,".data = "#EXTINF:4.0,".data ∧
    rewriteLine "h".data [] ⟨"https".data, "cdn".data, "/x/live.m3u8".data, []⟩
        "seg01.ts".data =
      "http://h/proxy?url=https%3A%2F%2Fcdn%2Fx%2Fseg01.ts&referer=".data := by
  constructor
  · exact (rewriteLine_cases "h".data [] ⟨"https".data, "cdn".data, "/x/live.m3u8".data, []⟩
      "#EXTINF:4.0,".data).1 (Or.inr (by decide))
  · have h := (rewriteLine_cases "h".data [] ⟨"https".data, "cdn".data, "/x/live.m3u8".data, []⟩
      "seg01.ts".data).2.2.2 (by decide) (by decide) (by decide)
    rw [h]
    decide

/-! ## Segment fetcher: skip-ahead and retry loop
(src/lib/proxy.js lines 4-28, src/routes/proxy.js lines 249-328) -/

/-- `parseInt` on a digit run. -/
def digitsToNat (ds : List Char) : Nat :=
  ds.foldl (fun a c => a * 10 + (c.toNat - 48)) 0

/-- After the digits, dot and extension of the segment regex, the rest of
the URL must be empty or a `?`-prefixed query (a query containing a
newline, which `.` would not match, is not modelled). -/
def segTailCheck (ds tail : List Char) : Option Nat :=
  match tail with
  | [] => some (digitsToNat ds)
  | c :: _ => if c.toNat = 63 then some (digitsToNat ds) else none

/-- Attempt the regex `(\d+)\.(?:ts|m4s|mp4)(\?.*)?$` at one start
position: a maximal nonempty digit run, a dot, one of the three
extensions, then a valid tail.  Returns `parseInt` of the captured
digits. -/
def segMatchHere (s : List Char) : Option Nat :=
  let ds := s.takeWhile Char.isDigit
  let rest := s.dropWhile Char.isDigit
  if ds.isEmpty then none
  else
    match rest with
    | '.' :: rest2 =>
      if startsWithL "ts".data rest2 then segTailCheck ds (rest2.drop 2)
      else if startsWithL "m4s".data rest2 then segTailCheck ds (rest2.drop 3)
      else if startsWithL "mp4".data rest2 then segTailCheck ds (rest2.drop 3)
      else none
    | _ => none

/-- Leftmost match of `(\d+)\.(?:ts|m4s|mp4)(\?.*)?$` over the URL
(`currentUrl.match(...)` in `tryNextSegment`). -/
def segMatch : List Char → Option Nat
  | [] => none
  | c :: rest =>
    match segMatchHere (c :: rest) with
    | some n => some n
    | none => segMatch rest

/-- `tryNextSegment(currentUrl)` (src/lib/proxy.js lines 4-28).  `probe`
models the HEAD request (`some status` when axios resolves with
`status < 500`, `none` when it throws).  The next URL is
`currentUrl.replace(`${n}.`, `${n+1}.`)` — a first-occurrence string
replacement. -/
def tryNextSegment (probe : List Char → Option Nat) (currentUrl : List Char) :
    Option (List Char) :=
  match segMatch currentUrl with
  | none => none
  | some segmentNumber =>
    let nextUrl := replaceFirst currentUrl (natDigits segmentNumber ++ ['.'])
                     (natDigits (segmentNumber + 1) ++ ['.'])
    match probe nextUrl with
    | some 200 => some nextUrl
    | _ => none

/-- `url.includes('.ts') || url.includes('.m4s') || url.includes('.mp4')`
(src/routes/proxy.js line 250). -/
def isVideoSegment (url : List Char) : Bool :=
  containsSub ".ts".data url || containsSub ".m4s".data url ||
    containsSub ".mp4".data url

/-- One iteration's outcome of the axios fetch inside the retry loop:
`ok` (status < 400), `httpFail` (status 400-499 with the cumulative
elapsed milliseconds at the failure check), or `netFail` (a transport
error or a 5xx, which axios surfaces as a thrown error). -/
inductive AttemptOutcome where
  | ok
  | httpFail (status : Nat) (elapsed : Int)
  | netFail (elapsed : Int)

/-- The response produced by the retry loop: `body url skipped` streams
the upstream body fetched from `url`; `emptySegment` is the give-up
response (status 200, `Content-Type: video/mp2t`, `Content-Length: 0`);
`upstreamStatus` propagates the upstream code; `errored` is the thrown
path answered 500 by the outer handler. -/
inductive SegResponse where
  | body (url : List Char) (skipped : Bool)
  | emptySegment
  | upstreamStatus (status : Nat)
  | errored
deriving DecidableEq

/-- The retry loop of src/routes/proxy.js lines 258-328, driven by the
list of per-attempt outcomes.  `attempt` is the loop counter (the
`continue` after a skip-ahead also passes through `attempt++`). -/
def segmentLoop (probe : List Char → Option Nat) (seg : Bool) (maxRetries : Nat)
    (currentUrl : List Char) (segmentSkipped : Bool) (attempt : Nat) :
    List AttemptOutcome → SegResponse
  | [] => SegResponse.errored
  | AttemptOutcome.ok :: _ => SegResponse.body currentUrl segmentSkipped
  | AttemptOutcome.httpFail status elapsed :: rest =>
    let skipResult :=
      if seg = true ∧ status = 404 ∧ attempt = 0 then tryNextSegment probe currentUrl
      else none
    match skipResult with
    | some nextUrl => segmentLoop probe seg maxRetries nextUrl true (attempt + 1) rest
    | none =>
      if elapsed ≥ 4000 ∧ seg = true then SegResponse.emptySegment
      else if attempt < maxRetries then
        segmentLoop probe seg maxRetries currentUrl segmentSkipped (attempt + 1) rest
      else SegResponse.upstreamStatus status
  | AttemptOutcome.netFail elapsed :: rest =>
    if elapsed ≥ 4000 ∧ seg = true then SegResponse.emptySegment
    else if attempt < maxRetries then
      segmentLoop probe seg maxRetries currentUrl segmentSkipped (attempt + 1) rest
    else SegResponse.errored

/-- The binary-stream branch of `router.get('/proxy')`:
`maxRetries = isVideoSegment ? 10 : 0`, starting at attempt 0 with the
requested URL and no skip. -/
def handleSegmentRequest (probe : List Char → Option Nat) (url : List Char)
    (outcomes : List AttemptOutcome) : SegResponse :=
  segmentLoop probe (isVideoSegment url)
    (if isVideoSegment url then 10 else 0) url false 0 outcomes

/-- **C3 counterexample.** A segment-shaped request whose first attempt
fails with 404 after 5000 ms of cumulative elapsed time — at least the
4000 ms give-up threshold — does not terminate with the empty-body
give-up response when the next-segment probe succeeds: the skip-ahead
branch is checked first, retargets the fetch, and the response is the
next segment's streamed body. -/
theorem segment_giveup_claim_counterexample :
    isVideoSegment "http://h/seg5.ts".data = true ∧
    handleSegmentRequest (fun _ => some 200) "http://h/seg5.ts".data
        [AttemptOutcome.httpFail 404 5000, AttemptOutcome.ok] =
      SegResponse.body "http://h/seg6.ts".data true ∧
    SegResponse.body "http://h/seg6.ts".data true ≠ SegResponse.emptySegment := by
  decide

/-- **C3 (amended).** On a segment-shaped request, a failure at
cumulative elapsed time ≥ 4000 ms terminates the retry loop with the
empty-body give-up response (status 200, `video/mp2t`, zero length) —
regardless of remaining attempt budget — except when the failure is a
404 on attempt 0 and the next-segment probe succeeds, in which case the
skip-ahead retargets the fetch and the loop continues.  A transport
error or 5xx at elapsed ≥ 4000 ms likewise gives up.  A non-segment
request that fails with an upstream 4xx status responds with that status
code (no retries: its attempt budget is 0). -/
theorem segment_giveup_and_nonsegment_status (probe : List Char → Option Nat)
    (maxRetries attempt : Nat) (currentUrl : List Char) (segmentSkipped : Bool) :
    (∀ (status : Nat) (elapsed : Int) (rest : List AttemptOutcome),
      elapsed ≥ 4000 →
      ¬(status = 404 ∧ attempt = 0 ∧ (tryNextSegment probe currentUrl).isSome = true) →
      segmentLoop probe true maxRetries currentUrl segmentSkipped attempt
          (AttemptOutcome.httpFail status elapsed :: rest) =
        SegResponse.emptySegment) ∧
    (∀ (elapsed : Int) (rest : List AttemptOutcome),
      elapsed ≥ 4000 →
      segmentLoop probe true maxRetries currentUrl segmentSkipped attempt
          (AttemptOutcome.netFail elapsed :: rest) =
        SegResponse.emptySegment) ∧
    (∀ (status : Nat) (elapsed : Int) (rest : List AttemptOutcome),
      segmentLoop probe false 0 currentUrl segmentSkipped 0
          (AttemptOutcome.httpFail status elapsed :: rest) =
        SegResponse.upstreamStatus status) := by
  refine ⟨?_, ?_, ?_⟩
  · intro status elapsed rest helapsed hskip
    simp only [segmentLoop]
    have hsk : (if True ∧ status = 404 ∧ attempt = 0 then
        tryNextSegment probe currentUrl else none) = none := by
      split_ifs with hg
      · cases htn : tryNextSegment probe currentUrl with
        | none => rfl
        | some u => exact absurd ⟨hg.2.1, hg.2.2, by simp [htn]⟩ hskip
      · rfl
    rw [hsk]
    simp [helapsed]
  · intro elapsed rest helapsed
    simp [segmentLoop, helapsed]
  · intro status elapsed rest
    simp [segmentLoop]

/-- Witness for `segment_giveup_and_nonsegment_status`: with no next
segment available, a 404 at 4000 ms elapsed yields the empty give-up
response; a non-segment request answering 404 propagates the 404. -/
theorem segment_giveup_and_nonsegment_status_witness :
    segmentLoop (fun _ => none) true 10 "http://h/seg9.ts".data false 0
        [AttemptOutcome.httpFail 404 4000] = SegResponse.emptySegment ∧
    segmentLoop (fun _ => none) false 0 "http://h/x.bin".data false 0
        [AttemptOutcome.httpFail 404 100] = SegResponse.upstreamStatus 404 := by
  have h := segment_giveup_and_nonsegment_status (fun _ => none) 10 0
    "http://h/seg9.ts".data false
  have h2 := segment_giveup_and_nonsegment_status (fun _ => none) 0 0
    "http://h/x.bin".data false
  exact ⟨h.1 404 4000 [] (by norm_num) (by decide), h2.2.2 404 100 []⟩

/-- **C4 (code bug).** On the first attempt's 404 the skip-ahead fires
for a URL with a trailing numeric index, but the retarget URL is built
with `String.replace`, which replaces the *first* occurrence of
`"<index>."` in the whole URL: for
`https://e.com/v5.1/seg5.ts` the probe and retarget go to
`https://e.com/v6.1/seg5.ts` — a different resource — instead of the
next-numbered segment `https://e.com/v5.1/seg6.ts`.  On a URL whose
first occurrence is the trailing index (`seg01.ts`) the behaviour matches
the claim; no skip-ahead happens without a trailing index or on a later
attempt. -/
theorem tryNextSegment_replaces_first_occurrence :
    tryNextSegment (fun _ => some 200) "https://e.com/v5.1/seg5.ts".data =
      some "https://e.com/v6.1/seg5.ts".data ∧
    "https://e.com/v6.1/seg5.ts".data ≠ "https://e.com/v5.1/seg6.ts".data ∧
    handleSegmentRequest (fun _ => some 200) "https://e.com/v5.1/seg5.ts".data
        [AttemptOutcome.httpFail 404 100, AttemptOutcome.ok] =
      SegResponse.body "https://e.com/v6.1/seg5.ts".data true ∧
    tryNextSegment (fun _ => some 200) "https://cdn/x/seg01.ts".data =
      some "https://cdn/x/seg02.ts".data ∧
    handleSegmentRequest (fun _ => some 200) "https://cdn/x/seg01.ts".data
        [AttemptOutcome.httpFail 404 100, AttemptOutcome.ok] =
      SegResponse.body "https://cdn/x/seg02.ts".data true ∧
    tryNextSegment (fun _ => some 200) "https://cdn/x/stream.m3u8".data = none ∧
    segmentLoop (fun _ => some 200) true 10 "https://cdn/x/seg01.ts".data false 1
        [AttemptOutcome.httpFail 404 100, AttemptOutcome.ok] =
      SegResponse.body "https://cdn/x/seg01.ts".data false := by
  decide

end Homecast
